import Mathlib

/-!
# Verification of the DIYThermostat core pipeline

Shallow embedding of the DIYThermostat repository (files `summary.py`,
`smart_thermostat.py`, `telegram_controller.py`):

* log lines are modelled as Lean `String`s / `List Char`;
* timestamps are modelled as integer seconds on the naive local clock
  (all timestamps in the program carry the same fixed time zone, so
  comparisons and differences are unaffected; Europe/Istanbul has the
  fixed offset +03:00);
* the log parser `parse_logs`, the aggregator
  `calculate_runtime_for_period`, the formatter `format_seconds`, the
  summary builder `get_summary`, the snapshot store
  (`load_summary_file` / `save_summary_file` / `add_daily_summary`),
  the three request handlers, the heartbeat monitor and the serial
  reader are translated definition by definition from the source;
* fallible code (Python exceptions) returns `Option`.
-/

/-! ## Character-list utilities (Python string operations) -/

/-- Python `s.startswith(pat)` on decoded characters. -/
def leadMatch : List Char → List Char → Bool
  | [], _ => true
  | _ :: _, [] => false
  | p :: ps, c :: cs => p == c && leadMatch ps cs

/-- Python `pat in s` (substring containment) on decoded characters. -/
def hasSub (pat : List Char) : List Char → Bool
  | [] => leadMatch pat []
  | c :: cs => leadMatch pat (c :: cs) || hasSub pat cs

/-- Python `s.split(sep)` for a one-character separator. -/
def splitChars : List Char → Char → List (List Char)
  | [], _ => [[]]
  | c :: rest, sep =>
    if c = sep then [] :: splitChars rest sep
    else
      match splitChars rest sep with
      | [] => [[c]]
      | g :: gs => (c :: g) :: gs

/-- Python `line.replace("MODE:", "")`: delete every occurrence of the
pattern `MODE:`, scanning left to right. -/
def stripModeTok : List Char → List Char
  | 'M' :: 'O' :: 'D' :: 'E' :: ':' :: rest => stripModeTok rest
  | c :: rest => c :: stripModeTok rest
  | [] => []

/-- Numeric value of a decimal digit character, if it is one. -/
def digitVal (c : Char) : Option Nat :=
  if '0' ≤ c ∧ c ≤ '9' then some (c.toNat - '0'.toNat) else none

/-- Two-digit decimal field. -/
def dd2 (a b : Char) : Option Nat := do
  let x ← digitVal a
  let y ← digitVal b
  pure (10 * x + y)

/-- Four-digit decimal field. -/
def dd4 (a b c d : Char) : Option Nat := do
  let x ← dd2 a b
  let y ← dd2 c d
  pure (100 * x + y)

/-! ## Calendar arithmetic (naive local seconds) -/

/-- Gregorian leap-year test. -/
def isLeap (y : Nat) : Bool :=
  decide ((y % 4 = 0 ∧ y % 100 ≠ 0) ∨ y % 400 = 0)

/-- Number of days in a month (used by the timestamp validator). -/
def daysInMonth (y m : Nat) : Nat :=
  if m = 2 then (if isLeap y then 29 else 28)
  else if m = 4 ∨ m = 6 ∨ m = 9 ∨ m = 11 then 30
  else 31

/-- Days since 1970-01-01 of a civil date (standard era-based formula). -/
def daysFromCivil (y m d : Int) : Int :=
  let y' := if m ≤ 2 then y - 1 else y
  let era := Int.fdiv y' 400
  let yoe := y' - era * 400
  let mp := Int.fmod (m + 9) 12
  let doy := Int.fdiv (153 * mp + 2) 5 + d - 1
  let doe := yoe * 365 + Int.fdiv yoe 4 - Int.fdiv yoe 100 + doy
  era * 146097 + doe - 719468

/-- Inverse of `daysFromCivil` (year, month, day). -/
def civilFromDays (z0 : Int) : Int × Int × Int :=
  let z := z0 + 719468
  let era := Int.fdiv z 146097
  let doe := z - era * 146097
  let yoe :=
    Int.fdiv (doe - Int.fdiv doe 1460 + Int.fdiv doe 36524 - Int.fdiv doe 146096) 365
  let y := yoe + era * 400
  let doy := doe - (365 * yoe + Int.fdiv yoe 4 - Int.fdiv yoe 100)
  let mp := Int.fdiv (5 * doy + 2) 153
  let d := doy - Int.fdiv (153 * mp + 2) 5 + 1
  let m := mp + (if mp < 10 then 3 else -9)
  (if m ≤ 2 then y + 1 else y, m, d)

/-- Naive local epoch seconds of a civil date-time. -/
def toEpoch (y mo d h mi s : Nat) : Int :=
  daysFromCivil (Int.ofNat y) (Int.ofNat mo) (Int.ofNat d) * 86400 +
    Int.ofNat h * 3600 + Int.ofNat mi * 60 + Int.ofNat s

/-- `datetime.strptime(timestamp_str, "%Y-%m-%d %H:%M:%S")` applied to the
19-character slice `line[1:20]`: accepts the canonical zero-padded layout
produced by the logger, validating field ranges, and yields naive local
epoch seconds.  Any other input yields `none` (a `ValueError` that the
caller turns into skipping the line). -/
def parseTs (cs : List Char) : Option Int :=
  match cs with
  | [y1, y2, y3, y4, c1, o1, o2, c2, a1, a2, c3, h1, h2, c4, n1, n2, c5, s1, s2] =>
    if c1 = '-' ∧ c2 = '-' ∧ c3 = ' ' ∧ c4 = ':' ∧ c5 = ':' then do
      let y ← dd4 y1 y2 y3 y4
      let mo ← dd2 o1 o2
      let d ← dd2 a1 a2
      let h ← dd2 h1 h2
      let mi ← dd2 n1 n2
      let s ← dd2 s1 s2
      if 1 ≤ y ∧ 1 ≤ mo ∧ mo ≤ 12 ∧ 1 ≤ d ∧ d ≤ daysInMonth y mo ∧
          h ≤ 23 ∧ mi ≤ 59 ∧ s ≤ 59 then
        some (toEpoch y mo d h mi s)
      else none
    else none
  | _ => none

/-- Zero-padded two-digit rendering (`strftime` fields). -/
def pad2 (n : Int) : String :=
  if n < 10 then "0" ++ toString n else toString n

/-- Zero-padded four-digit year rendering. -/
def pad4 (n : Int) : String :=
  if n < 10 then "000" ++ toString n
  else if n < 100 then "00" ++ toString n
  else if n < 1000 then "0" ++ toString n
  else toString n

/-- `strftime("%Y-%m-%d")` of a naive local epoch value. -/
def dateStr (t : Int) : String :=
  let c := civilFromDays (Int.fdiv t 86400)
  pad4 c.1 ++ "-" ++ pad2 c.2.1 ++ "-" ++ pad2 c.2.2

/-- `%H:%M:%S` of a naive local epoch value. -/
def timeStr (t : Int) : String :=
  let sec := Int.fmod t 86400
  pad2 (Int.fdiv sec 3600) ++ ":" ++ pad2 (Int.fdiv (Int.fmod sec 3600) 60) ++
    ":" ++ pad2 (Int.fmod sec 60)

/-- `datetime.isoformat()` for the fixed Europe/Istanbul offset. -/
def isoformat (t : Int) : String :=
  dateStr t ++ "T" ++ timeStr t ++ "+03:00"

/-! ## Session data model (`summary.py`, class `ThermostatSession`) -/

/-- `ThermostatSession`: a single on/off session; `end_time` is `None`
while the session is still open. -/
structure ThermostatSession where
  start_time : Int
  end_time : Option Int
  session_type : String
deriving DecidableEq, Repr

namespace ThermostatSession

/-- `duration_seconds`: duration in seconds, `None` while open. -/
def duration_seconds (s : ThermostatSession) : Option Int :=
  match s.end_time with
  | none => none
  | some e => some (e - s.start_time)

/-- `is_complete`: the session has both a start and an end. -/
def is_complete (s : ThermostatSession) : Bool :=
  s.end_time.isSome

end ThermostatSession

/-! ## Log parsing (`summary.py`, `parse_logs`) -/

/-- Fixed tokens searched for by the parser. -/
def statusTok : List Char := "STATUS:".toList

def modeTok : List Char := "MODE:".toList

def startedTok : List Char := "STATUS:STARTED".toList

def stoppedTok : List Char := "STATUS:STOPPED".toList

def manualTok : List Char := "MANUAL".toList

/-- The two classified event shapes that drive session reconstruction. -/
inductive StatusEvent where
  | started (ts : Int) (manual : Bool)
  | stopped (ts : Int)
deriving DecidableEq, Repr

/-- Timestamp carried by a classified event. -/
def evTs : StatusEvent → Int
  | .started ts _ => ts
  | .stopped ts => ts

/-- Per-line event classification: the guards of the `parse_logs` loop
body (skip lines without `STATUS:`/`MODE:`, skip lines not starting with
`[`, extract and parse `line[1:20]`, then match `STATUS:STARTED` before
`STATUS:STOPPED`); the manual flag is `"MANUAL" in line`. -/
def classifyLine (line : String) : Option StatusEvent :=
  let cs := line.toList
  if ¬ (hasSub statusTok cs || hasSub modeTok cs) then none
  else if ¬ leadMatch ['['] cs then none
  else
    match parseTs ((cs.drop 1).take 19) with
    | none => none
    | some ts =>
      if hasSub startedTok cs then some (.started ts (hasSub manualTok cs))
      else if hasSub stoppedTok cs then some (.stopped ts)
      else none

/-- Loop state of `parse_logs`: the accumulated `sessions` list and the
`current_session` slot. -/
structure ParseState where
  sessions : List ThermostatSession
  current_session : Option ThermostatSession
deriving DecidableEq, Repr

/-- The branch bodies of the `parse_logs` loop: on `STATUS:STARTED`,
force-close an open `current_session` at the new timestamp and append it,
then open a new session typed by the manual flag; on `STATUS:STOPPED`,
close and append the open session and clear the slot. -/
def stepEvent (st : ParseState) : StatusEvent → ParseState
  | .started ts manual =>
    let sessions :=
      match st.current_session with
      | some cur =>
        if cur.is_complete then st.sessions
        else st.sessions ++ [{ cur with end_time := some ts }]
      | none => st.sessions
    let session_type := if manual then "MANUAL" else "AUTO"
    ⟨sessions, some ⟨ts, none, session_type⟩⟩
  | .stopped ts =>
    match st.current_session with
    | some cur =>
      if cur.is_complete then st
      else ⟨st.sessions ++ [{ cur with end_time := some ts }], none⟩
    | none => st

/-- One iteration of the `parse_logs` loop. -/
def processLine (st : ParseState) (line : String) : ParseState :=
  match classifyLine line with
  | none => st
  | some e => stepEvent st e

/-- Final loop state of `parse_logs` over the given log lines. -/
def runLines (lines : List String) : ParseState :=
  lines.foldl processLine ⟨[], none⟩

/-- `parse_logs` on the lines of the log file: the list of completed
sessions; an incomplete session left at end of file is not added. -/
def parse_logs (lines : List String) : List ThermostatSession :=
  (runLines lines).sessions

/-- `parse_logs` at the file level: a missing log file
(`FileNotFoundError`) yields the empty session list. -/
def parse_logs_file (file : Option (List String)) : List ThermostatSession :=
  match file with
  | none => []
  | some lines => parse_logs lines

/-- Timestamps of the classified status events of a line list. -/
def eventTimes (lines : List String) : List Int :=
  (lines.filterMap classifyLine).map evTs

/-! ## Runtime aggregation (`summary.py`, `calculate_runtime_for_period`) -/

/-- One clamped detail record appended by the aggregator
(`start`/`end` are `isoformat()` strings in the source). -/
structure Detail where
  start : String
  dEnd : String
  duration : Int
  dType : String
deriving DecidableEq, Repr

/-- The clamped overlap `min(session.end, period.end) −
max(session.start, period.start)` of a closed session with a period
(`0` junk value for an open session, which the source cannot reach). -/
def clampOverlap (p1 p2 : Int) (s : ThermostatSession) : Int :=
  match s.end_time with
  | some e => min e p2 - max s.start_time p1
  | none => 0

/-- `calculate_runtime_for_period(sessions, start_datetime, end_datetime)`:
fast-skip sessions with `end < start_datetime` or `start > end_datetime`,
otherwise clamp and count positive overlaps.  Comparing the `None`
end of an open session raises a `TypeError` in Python, modelled as
`none`. -/
def calculate_runtime_for_period :
    List ThermostatSession → Int → Int → Option (Int × Nat × List Detail)
  | [], _, _ => some (0, 0, [])
  | session :: rest, start_datetime, end_datetime =>
    match session.end_time with
    | none => none
    | some e =>
      match calculate_runtime_for_period rest start_datetime end_datetime with
      | none => none
      | some r =>
        if e < start_datetime ∨ session.start_time > end_datetime then some r
        else
          let overlap_start := max session.start_time start_datetime
          let overlap_end := min e end_datetime
          let overlap_duration := overlap_end - overlap_start
          if overlap_duration > 0 then
            some (overlap_duration + r.1, r.2.1 + 1,
              ⟨isoformat overlap_start, isoformat overlap_end,
                overlap_duration, session.session_type⟩ :: r.2.2)
          else some r

/-- `format_seconds(seconds)`: human readable `"<h>h <m>m"` / `"<m>m"`,
`"N/A"` for `None`; Python `//` and `%` are floor division and modulo. -/
def format_seconds (seconds : Option Int) : String :=
  match seconds with
  | none => "N/A"
  | some s =>
    let hours := Int.fdiv s 3600
    let minutes := Int.fdiv (Int.fmod s 3600) 60
    if hours > 0 then toString hours ++ "h " ++ toString minutes ++ "m"
    else toString minutes ++ "m"

/-! ## JSON values (the dictionaries built by the services) -/

/-- The JSON-like values the services serialize over their sockets. -/
inductive JVal where
  | bool (b : Bool)
  | num (n : Int)
  | str (s : String)
  | obj (fields : List (String × JVal))

/-- An `{'status': 'error', 'message': …}` dictionary. -/
def errObj (message : String) : JVal :=
  .obj [("status", .str "error"), ("message", .str message)]

/-- First field of a JSON object with the given key (Python
`dict.get`). -/
def getField (v : JVal) (key : String) : Option JVal :=
  match v with
  | .obj fields =>
    match fields.find? (fun p => p.1 == key) with
    | some p => some p.2
    | none => none
  | _ => none

/-- Does the response dictionary carry a `status` field? -/
def hasStatus (v : JVal) : Bool :=
  match v with
  | .obj fields => fields.any (fun p => p.1 == "status")
  | _ => false

/-! ## Summary statistics (`summary.py`, `get_summary`) -/

/-- The per-period sub-dictionary of the summary. -/
def periodObj (date : String) (r : Int × Nat × List Detail) : JVal :=
  .obj [("date", .str date), ("runtime_seconds", .num r.1),
    ("runtime_formatted", .str (format_seconds (some r.1))),
    ("sessions", .num (Int.ofNat r.2.1))]

/-- `get_summary()`: parse the log, report
`'No sessions found in logs'` when no complete session exists, otherwise
aggregate Today / Yesterday / DayBefore / Last7Days relative to `now`
(midnight is `now.replace(hour=0, minute=0, second=0, microsecond=0)` on
the naive local clock) and build the result dictionary; any exception is
reported as an error dictionary (the only in-model exception is the
unreachable `TypeError` on an open session). -/
def get_summary (file : Option (List String)) (now : Int) : JVal :=
  let sessions := parse_logs_file file
  if sessions.isEmpty then errObj "No sessions found in logs"
  else
    let today_start := now - Int.fmod now 86400
    let yesterday_start := today_start - 86400
    let yesterday_end := today_start - 1
    let day_before_start := today_start - 2 * 86400
    let day_before_end := yesterday_start - 1
    let seven_days_start := today_start - 6 * 86400
    match calculate_runtime_for_period sessions today_start now,
        calculate_runtime_for_period sessions yesterday_start yesterday_end,
        calculate_runtime_for_period sessions day_before_start day_before_end,
        calculate_runtime_for_period sessions seven_days_start now with
    | some t, some y, some db, some sv =>
      let average_seconds := Int.fdiv sv.1 7
      .obj [("status", .str "success"),
        ("timestamp", .str (isoformat now)),
        ("today", periodObj (dateStr today_start) t),
        ("yesterday", periodObj (dateStr yesterday_start) y),
        ("day_before", periodObj (dateStr day_before_start) db),
        ("last_7_days", .obj [("runtime_seconds", .num sv.1),
          ("runtime_formatted", .str (format_seconds (some sv.1))),
          ("sessions", .num (Int.ofNat sv.2.1)),
          ("average_per_day", .str (format_seconds (some average_seconds)))])]
    | _, _, _, _ => errObj "TypeError: incomplete session in aggregation"

/-! ## Snapshot store (`summary.py`, summary-file management) -/

/-- One persisted daily entry of `thermostat_summary.json`. -/
structure DailyEntry where
  runtime_seconds : Int
  runtime_formatted : String
  sessions : Nat
  timestamp : String
deriving DecidableEq, Repr

/-- The persisted mapping, insertion-ordered as a Python `dict`. -/
abbrev SummaryStore := List (String × DailyEntry)

/-- Python `summaries[date] = entry`: overwrite the first occurrence of
the key in place, else append. -/
def dictSet (store : SummaryStore) (key : String) (entry : DailyEntry) :
    SummaryStore :=
  match store with
  | [] => [(key, entry)]
  | (k, v) :: rest =>
    if k = key then (key, entry) :: rest else (k, v) :: dictSet rest key entry

/-- Python `summaries[date]` lookup (first occurrence). -/
def dictGet (store : SummaryStore) (key : String) : Option DailyEntry :=
  match store with
  | [] => none
  | (k, v) :: rest => if k = key then some v else dictGet rest key

/-- `load_summary_file()`: the parsed store, or `{}` when the file is
missing or unreadable. -/
def load_summary_file (file : Option SummaryStore) : SummaryStore :=
  match file with
  | none => []
  | some s => s

/-- `save_summary_file(data)`: the new file contents. -/
def save_summary_file (data : SummaryStore) : Option SummaryStore :=
  some data

/-- The store update performed by `add_daily_summary` once `get_summary`
succeeded: load the store, set/overwrite today's entry, save it back. -/
def add_daily_summary (file : Option SummaryStore) (today_date : String)
    (entry : DailyEntry) : Option SummaryStore :=
  save_summary_file (dictSet (load_summary_file file) today_date entry)

/-- The boolean result of `add_daily_summary()`: `False` when the
summary calculation failed, `True` once the store was saved. -/
def add_daily_summary_result (file : Option (List String)) (now : Int) : Bool :=
  match getField (get_summary file now) "status" with
  | some (.str s) => s == "success"
  | _ => false

/-- `get_historical_summary()`: the full persisted mapping. -/
def get_historical_summary (file : Option SummaryStore) : JVal :=
  .obj [("status", .str "success"),
    ("summaries", .obj ((load_summary_file file).map (fun p =>
      (p.1, JVal.obj [("runtime_seconds", .num p.2.runtime_seconds),
        ("runtime_formatted", .str p.2.runtime_formatted),
        ("sessions", .num (Int.ofNat p.2.sessions)),
        ("timestamp", .str p.2.timestamp)]))))]

/-! ## Query service (`summary.py`, `handle_client`) -/

/-- The response dictionary computed by `handle_client` for a request
string: `SUMMARY` and `HISTORICAL` return the result dictionaries,
`DAILY_SUMMARY` returns the bare boolean of `add_daily_summary()`, any
other request an error dictionary.  `file`/`now`/`store` stand for the
log file, wall clock and snapshot file the operations read. -/
def handle_client_response (file : Option (List String)) (now : Int)
    (store : Option SummaryStore) (request : String) : JVal :=
  if request = "SUMMARY" then get_summary file now
  else if request = "DAILY_SUMMARY" then .bool (add_daily_summary_result file now)
  else if request = "HISTORICAL" then get_historical_summary store
  else errObj ("Unknown command: " ++ request)

/-! ## Control service (`smart_thermostat.py`, `handle_command_connection`) -/

/-- The response of `handle_command_connection` for a received command
`data` (already decoded and stripped): `none` models the early `return`
on empty input, where no response is sent; `sendOk` is the result of
`send_arduino_command`; `tstat`/`tmode`/`lastHb` the in-memory device
snapshot. -/
def handle_command_response (data : String) (sendOk : Bool)
    (tstat tmode : String) (lastHb : Int) : Option JVal :=
  if data = "" then none
  else some (
    if leadMatch "OVERRIDE:".toList data.toList then
      if sendOk then
        .obj [("status", .str "success"), ("message", .str ("Command sent: " ++ data))]
      else errObj "Failed to send to Arduino"
    else if leadMatch "CLEAR_SCHED".toList data.toList then
      if sendOk then
        .obj [("status", .str "success"), ("message", .str "Schedules cleared")]
      else errObj "Failed to clear schedules"
    else if leadMatch "SCHED:".toList data.toList then
      if sendOk then
        .obj [("status", .str "success"), ("message", .str ("Schedule sent: " ++ data))]
      else errObj "Failed to send schedule"
    else if data = "GET_STATUS" then
      .obj [("status", .str "success"), ("thermostat_status", .str tstat),
        ("thermostat_mode", .str tmode), ("last_heartbeat", .num lastHb)]
    else errObj ("Unknown command: " ++ data))

/-! ## Notification service (`telegram_controller.py`,
`handle_notification_request`) -/

/-- The response of `handle_notification_request`: `payload` is the
parsed JSON dictionary (`none` when `json.loads` raised, handled by the
`except` branch), `sendOk` the result of `send_telegram_message`. -/
def handle_notification_response (payload : Option (List (String × JVal)))
    (sendOk : Bool) : JVal :=
  match payload with
  | none => errObj "Expecting value: line 1 column 1 (char 0)"
  | some fields =>
    if (match getField (.obj fields) "type" with
        | some (.str t) => t == "notification"
        | _ => false) then
      if sendOk then
        .obj [("status", .str "success"), ("message", .str "Notification sent")]
      else errObj "Failed to send notification"
    else errObj "Unknown request type"

/-! ## Liveness monitor (`smart_thermostat.py`, `heartbeat_monitor`) -/

/-- The two notifications the monitor can log. -/
inductive MonEvent where
  | offline
  | recovered
deriving DecidableEq, Repr

/-- One iteration of the `heartbeat_monitor` loop: given the elapsed
time since the last heartbeat, latch `alert_sent` and emit at most one
event. -/
def monitor_check (timeout : Int) (alert_sent : Bool) (elapsed : Int) :
    Bool × Option MonEvent :=
  if elapsed > timeout ∧ alert_sent = false then (true, some .offline)
  else if elapsed < timeout ∧ alert_sent = true then (false, some .recovered)
  else (alert_sent, none)

/-- Iterated monitor checks over a trace of elapsed times, collecting
the emitted events in order. -/
def runMon (timeout : Int) : Bool → List Int → Bool × List MonEvent
  | alert_sent, [] => (alert_sent, [])
  | alert_sent, e :: rest =>
    let c := monitor_check timeout alert_sent e
    let r := runMon timeout c.1 rest
    (r.1, (match c.2 with | some x => [x] | none => []) ++ r.2)

/-! ## Serial reader (`smart_thermostat.py`, `read_arduino`) -/

/-- The process-wide device state the reader mutates. -/
structure DevState where
  last_heartbeat : Int
  thermostat_status : List Char
  thermostat_mode : List Char
deriving DecidableEq, Repr

/-- The `HEARTBEAT:` branch body applied to the split parts of the line
(`line.split(":")`): `last_heartbeat` is refreshed unconditionally; with
at least four parts (`HEARTBEAT`, clock hour, clock minute, on/off) the
status is taken from the fourth; a fifth part, when present, replaces
the mode, which is otherwise left unchanged. -/
def heartbeat_update (st : DevState) (now : Int) :
    List (List Char) → DevState
  | _ :: _ :: _ :: p3 :: rest =>
    let newMode := match rest with
      | p4 :: _ => p4
      | [] => st.thermostat_mode
    { st with last_heartbeat := now, thermostat_status := p3,
              thermostat_mode := newMode }
  | _ => { st with last_heartbeat := now }

/-- One iteration of the `read_arduino` message dispatch for a decoded,
stripped line `cs`, at wall-clock time `now` (only the state-mutating
effect; serial writes and logging are external effects). -/
def read_arduino_step (st : DevState) (now : Int) (cs : List Char) : DevState :=
  if cs = "READY".toList then st
  else if cs = "TIME_SYNC_REQUEST".toList then st
  else if leadMatch "TIME_SET:".toList cs then st
  else if cs = "STATUS:STARTED".toList then
    { st with last_heartbeat := now, thermostat_status := "ON".toList }
  else if cs = "STATUS:STOPPED".toList then
    { st with last_heartbeat := now, thermostat_status := "OFF".toList }
  else if cs = "STATUS:STARTED_MANUAL".toList then
    { st with last_heartbeat := now, thermostat_status := "ON".toList }
  else if cs = "STATUS:STOPPED_MANUAL".toList then
    { st with last_heartbeat := now, thermostat_status := "OFF".toList }
  else if leadMatch modeTok cs then
    { st with thermostat_mode := stripModeTok cs }
  else if leadMatch "HEARTBEAT:".toList cs then
    heartbeat_update st now (splitChars cs ':')
  else st

/-! ## Status display (`telegram_controller.py`, `cmd_status`) -/

/-- The heartbeat fields extracted by `cmd_status` from the text after
`HEARTBEAT:` in the newest matching log line: with at least three parts
it shows `(arduino_time, state, mode)`, the mode defaulting to
`"UNKNOWN"` when the fourth part is absent; with fewer parts nothing is
shown. -/
def cmd_status_heartbeat (heartbeat_data : List Char) :
    Option (List Char × List Char × List Char) :=
  match splitChars heartbeat_data ':' with
  | p0 :: p1 :: p2 :: rest =>
    some (p0 ++ [':'] ++ p1, p2,
      match rest with
      | p3 :: _ => p3
      | [] => "UNKNOWN".toList)
  | _ => none

/-! ## Infrastructure lemmas -/

theorem foldl_processLine_eq (lines : List String) (st : ParseState) :
    lines.foldl processLine st = (lines.filterMap classifyLine).foldl stepEvent st := by
  induction lines generalizing st with
  | nil => rfl
  | cons l ls ih =>
    cases h : classifyLine l with
    | none => simp [List.filterMap_cons, h, processLine, ih]
    | some e => simp [List.filterMap_cons, h, processLine, ih]

/-- The sessions list grows only by complete force-closed copies of the
open session. -/
theorem stepEvent_sessions_spec (st : ParseState) (e : StatusEvent) :
    (stepEvent st e).sessions = st.sessions ∨
    ∃ cur, st.current_session = some cur ∧ cur.end_time = none ∧
      (stepEvent st e).sessions =
        st.sessions ++ [{ cur with end_time := some (evTs e) }] := by
  cases e with
  | started ts manual =>
    cases hcur : st.current_session with
    | none => left; simp [stepEvent, hcur]
    | some cur =>
      by_cases hc : cur.is_complete
      · left; simp [stepEvent, hcur, hc]
      · right
        refine ⟨cur, rfl, ?_, ?_⟩
        · simp only [ThermostatSession.is_complete] at hc
          exact Option.not_isSome_iff_eq_none.mp hc
        · simp [stepEvent, hcur, hc, evTs]
  | stopped ts =>
    cases hcur : st.current_session with
    | none => left; simp [stepEvent, hcur]
    | some cur =>
      by_cases hc : cur.is_complete
      · left; simp [stepEvent, hcur, hc]
      · right
        refine ⟨cur, rfl, ?_, ?_⟩
        · simp only [ThermostatSession.is_complete] at hc
          exact Option.not_isSome_iff_eq_none.mp hc
        · simp [stepEvent, hcur, hc, evTs]

/-- Every session ever appended by the reconstruction loop is complete. -/
theorem run_complete (evs : List StatusEvent) (st : ParseState)
    (h : ∀ s ∈ st.sessions, s.is_complete = true) :
    ∀ s ∈ (evs.foldl stepEvent st).sessions, s.is_complete = true := by
  induction evs generalizing st with
  | nil => exact h
  | cons e rest ih =>
    refine ih (stepEvent st e) ?_
    intro s hs
    rcases stepEvent_sessions_spec st e with hspec | ⟨cur, _, _, hspec⟩
    · exact h s (hspec ▸ hs)
    · rw [hspec] at hs
      rcases List.mem_append.1 hs with hs | hs
      · exact h s hs
      · simp only [List.mem_singleton] at hs
        subst hs
        rfl

/-- Session end times never exceed a bound dominating all event
timestamps. -/
theorem run_endBound (B : Int) (evs : List StatusEvent) (st : ParseState)
    (hevs : ∀ e ∈ evs, evTs e ≤ B)
    (h : ∀ s ∈ st.sessions, ∀ t, s.end_time = some t → t ≤ B) :
    ∀ s ∈ (evs.foldl stepEvent st).sessions, ∀ t, s.end_time = some t → t ≤ B := by
  induction evs generalizing st with
  | nil => exact h
  | cons e rest ih =>
    refine ih (stepEvent st e) (fun f hf => hevs f (List.mem_cons_of_mem e hf)) ?_
    intro s hs t ht
    rcases stepEvent_sessions_spec st e with hspec | ⟨cur, _, _, hspec⟩
    · exact h s (hspec ▸ hs) t ht
    · rw [hspec] at hs
      rcases List.mem_append.1 hs with hs | hs
      · exact h s hs t ht
      · simp only [List.mem_singleton] at hs
        subst hs
        simp only at ht
        cases ht
        exact hevs e (List.mem_cons_self e rest)

/-- Characterisation of the aggregator on closed sessions: the total is
the sum of the positive parts of the clamped overlaps and the count is
the number of sessions with positive clamped overlap. -/
theorem calculate_runtime_spec (sessions : List ThermostatSession) (p1 p2 : Int)
    (h : ∀ s ∈ sessions, s.is_complete = true) :
    ∃ total count details,
      calculate_runtime_for_period sessions p1 p2 = some (total, count, details) ∧
      total = (sessions.map (fun s => max (clampOverlap p1 p2 s) 0)).sum ∧
      count = (sessions.filter (fun s => decide (0 < clampOverlap p1 p2 s))).length := by
  induction sessions with
  | nil => exact ⟨0, 0, [], rfl, rfl, rfl⟩
  | cons s rest ih =>
    obtain ⟨e, he⟩ : ∃ e, s.end_time = some e := by
      have := h s (List.mem_cons_self s rest)
      simpa [ThermostatSession.is_complete, Option.isSome_iff_exists] using this
    obtain ⟨tr, cr, dr, hrec, htot, hcnt⟩ :=
      ih (fun x hx => h x (List.mem_cons_of_mem s hx))
    have hclamp : clampOverlap p1 p2 s = min e p2 - max s.start_time p1 := by
      simp [clampOverlap, he]
    by_cases hskip : e < p1 ∨ s.start_time > p2
    · have hneg : clampOverlap p1 p2 s ≤ 0 := by rw [hclamp]; omega
      refine ⟨tr, cr, dr, ?_, ?_, ?_⟩
      · simp [calculate_runtime_for_period, he, hrec, hskip]
      · simp [htot, show max (clampOverlap p1 p2 s) 0 = 0 by omega]
      · simp [hcnt, List.filter_cons, show ¬ (0 < clampOverlap p1 p2 s) by omega]
    · by_cases hpos : 0 < clampOverlap p1 p2 s
      · refine ⟨clampOverlap p1 p2 s + tr, cr + 1,
          ⟨isoformat (max s.start_time p1), isoformat (min e p2),
            min e p2 - max s.start_time p1, s.session_type⟩ :: dr, ?_, ?_, ?_⟩
        · simp [calculate_runtime_for_period, he, hrec, hskip, hclamp,
            show min e p2 - max s.start_time p1 > 0 by omega]
        · simp [htot, show max (clampOverlap p1 p2 s) 0 = clampOverlap p1 p2 s by omega]
        · simp [hcnt, List.filter_cons, hpos, Nat.add_comm]
      · refine ⟨tr, cr, dr, ?_, ?_, ?_⟩
        · simp [calculate_runtime_for_period, he, hrec, hskip, hclamp,
            show ¬ (min e p2 - max s.start_time p1 > 0) by omega]
        · simp [htot, show max (clampOverlap p1 p2 s) 0 = 0 by omega]
        · simp [hcnt, List.filter_cons, hpos]

/-- Sessions whose end does not pass the period start aggregate to
nothing: zero seconds, zero sessions, no details. -/
theorem calculate_runtime_all_past (sessions : List ThermostatSession) (p1 p2 : Int)
    (hc : ∀ s ∈ sessions, s.is_complete = true)
    (hb : ∀ s ∈ sessions, ∀ t, s.end_time = some t → t ≤ p1) :
    calculate_runtime_for_period sessions p1 p2 = some (0, 0, []) := by
  induction sessions with
  | nil => rfl
  | cons s rest ih =>
    obtain ⟨e, he⟩ : ∃ e, s.end_time = some e := by
      have := hc s (List.mem_cons_self s rest)
      simpa [ThermostatSession.is_complete, Option.isSome_iff_exists] using this
    have hrec := ih (fun x hx => hc x (List.mem_cons_of_mem s hx))
      (fun x hx => hb x (List.mem_cons_of_mem s hx))
    have hle : e ≤ p1 := hb s (List.mem_cons_self s rest) e he
    by_cases hskip : e < p1 ∨ s.start_time > p2
    · simp [calculate_runtime_for_period, he, hrec, hskip]
    · simp [calculate_runtime_for_period, he, hrec, hskip,
        show ¬ (min e p2 - max s.start_time p1 > 0) by omega]

/-- Under strictly increasing classified event timestamps every session
the loop appends is closed strictly after it starts. -/
theorem run_ordered (evs : List StatusEvent) (st : ParseState)
    (hp : evs.Pairwise (fun a b => evTs a < evTs b))
    (hsess : ∀ s ∈ st.sessions, ∀ t, s.end_time = some t → s.start_time < t)
    (hcur : ∀ cur, st.current_session = some cur → ∀ e ∈ evs, cur.start_time < evTs e) :
    ∀ s ∈ (evs.foldl stepEvent st).sessions, ∀ t, s.end_time = some t → s.start_time < t := by
  induction evs generalizing st with
  | nil => exact hsess
  | cons e rest ih =>
    rw [List.pairwise_cons] at hp
    refine ih (stepEvent st e) hp.2 ?_ ?_
    · intro s hs t ht
      rcases stepEvent_sessions_spec st e with hspec | ⟨cur, hc, _, hspec⟩
      · exact hsess s (hspec ▸ hs) t ht
      · rw [hspec] at hs
        rcases List.mem_append.1 hs with hs | hs
        · exact hsess s hs t ht
        · simp only [List.mem_singleton] at hs
          subst hs
          simp only at ht
          cases ht
          exact hcur cur hc e (List.mem_cons_self e rest)
    · intro cur' hcur' f hf
      cases e with
      | started ts manual =>
        have : cur' = ⟨ts, none, if manual then "MANUAL" else "AUTO"⟩ := by
          simpa [stepEvent] using hcur'.symm
        subst this
        exact hp.1 f hf
      | stopped ts =>
        cases hc : st.current_session with
        | none =>
          rw [show stepEvent st (.stopped ts) = st by simp [stepEvent, hc]] at hcur'
          exact absurd (hcur'.symm.trans hc) (by simp)
        | some cur =>
          by_cases hcomp : cur.is_complete
          · rw [show stepEvent st (.stopped ts) = st by simp [stepEvent, hc, hcomp]] at hcur'
            exact hcur cur' hcur' f (List.mem_cons_of_mem _ hf)
          · rw [show (stepEvent st (.stopped ts)).current_session = none by
              simp [stepEvent, hc, hcomp]] at hcur'
            cases hcur'

/-- Looking up a key right after setting it yields the entry just set. -/
theorem dictGet_dictSet (store : SummaryStore) (key : String) (entry : DailyEntry) :
    dictGet (dictSet store key entry) key = some entry := by
  induction store with
  | nil => simp [dictSet, dictGet]
  | cons p rest ih =>
    by_cases hk : p.1 = key
    · simp [dictSet, hk, dictGet]
    · simp [dictSet, hk, dictGet, ih]

/-- A key that is absent stays absent in the filtered view. -/
theorem filter_key_eq_nil (store : SummaryStore) (key : String)
    (h : key ∉ store.map Prod.fst) :
    store.filter (fun p => p.1 == key) = [] := by
  induction store with
  | nil => rfl
  | cons p rest ih =>
    simp only [List.map_cons, List.mem_cons] at h
    push_neg at h
    simp [List.filter_cons, show (p.1 == key) = false by simpa using (Ne.symm h.1),
      ih h.2]

/-- Setting a key does not create a second occurrence of it when the
store keys are distinct. -/
theorem count_dictSet (store : SummaryStore) (key : String) (entry : DailyEntry)
    (h : (store.map Prod.fst).Nodup) :
    ((dictSet store key entry).filter (fun p => p.1 == key)).length = 1 := by
  induction store with
  | nil => simp [dictSet, List.filter_cons]
  | cons p rest ih =>
    simp only [List.map_cons, List.nodup_cons] at h
    by_cases hk : p.1 = key
    · have : rest.filter (fun q => q.1 == key) = [] :=
        filter_key_eq_nil rest key (hk ▸ h.1)
      simp [dictSet, hk, List.filter_cons, this]
    · simp [dictSet, hk, List.filter_cons, show (p.1 == key) = false by simpa using hk,
        ih h.2]

/-- Keys of the store after a set: the old keys, extended by the new key
only if it was absent. -/
theorem mem_map_fst_dictSet (store : SummaryStore) (key x : String) (entry : DailyEntry)
    (hx : x ∈ (dictSet store key entry).map Prod.fst) :
    x ∈ store.map Prod.fst ∨ x = key := by
  induction store with
  | nil => simpa [dictSet] using hx
  | cons p rest ih =>
    obtain ⟨k, v⟩ := p
    by_cases hk : k = key
    · subst hk
      simp only [dictSet, if_true, eq_self_iff_true, List.map_cons,
        List.mem_cons] at hx ⊢
      tauto
    · simp only [dictSet, if_neg hk, List.map_cons, List.mem_cons] at hx ⊢
      rcases hx with hx | hx
      · tauto
      · rcases ih hx with h | h <;> tauto

/-- Setting a key preserves distinctness of the store keys. -/
theorem nodup_dictSet (store : SummaryStore) (key : String) (entry : DailyEntry)
    (h : (store.map Prod.fst).Nodup) :
    ((dictSet store key entry).map Prod.fst).Nodup := by
  induction store with
  | nil => simp [dictSet]
  | cons p rest ih =>
    obtain ⟨k, v⟩ := p
    simp only [List.map_cons, List.nodup_cons] at h
    by_cases hk : k = key
    · subst hk
      simp only [dictSet, if_true, eq_self_iff_true, List.map_cons,
        List.nodup_cons]
      exact ⟨h.1, h.2⟩
    · simp only [dictSet, if_neg hk, List.map_cons, List.nodup_cons]
      refine ⟨fun hmem => ?_, ih h.2⟩
      rcases mem_map_fst_dictSet rest key k entry hmem with hm | hm
      · exact h.1 hm
      · exact hk hm

/-- Splitting a monitor trace at any point concatenates the emitted
events. -/
theorem runMon_append (timeout : Int) (a : Bool) (xs ys : List Int) :
    runMon timeout a (xs ++ ys) =
      ((runMon timeout (runMon timeout a xs).1 ys).1,
        (runMon timeout a xs).2 ++ (runMon timeout (runMon timeout a xs).1 ys).2) := by
  induction xs generalizing a with
  | nil => simp [runMon]
  | cons x xs ih => simp [runMon, ih, List.append_assoc]

/-- While the alert is latched and the heartbeat stays stale, no further
event is emitted and the latch stays set. -/
theorem runMon_stale (timeout : Int) (es : List Int) (h : ∀ e ∈ es, timeout < e) :
    runMon timeout true es = (true, []) := by
  induction es with
  | nil => rfl
  | cons e rest ih =>
    have he := h e (List.mem_cons_self e rest)
    have hrec := ih (fun f hf => h f (List.mem_cons_of_mem e hf))
    simp [runMon, monitor_check, show ¬ e < timeout by omega, hrec]

/-- Every branch of `get_summary` returns a dictionary with a `status`
field. -/
theorem hasStatus_get_summary (file : Option (List String)) (now : Int) :
    hasStatus (get_summary file now) = true := by
  rw [get_summary]
  split
  · rfl
  · dsimp only
    split <;> rfl

/-! ## Claims -/

/-- C1: for every list of closed sessions and every period,
`calculate_runtime_for_period` returns a total equal to the sum over all
sessions of the clamped overlap when positive, and a session whose end
does not exceed the period start, or whose start is at or past the period
end, has non-positive clamped overlap, hence contributes zero seconds and
is not counted in `session_count` (the count of positive overlaps). -/
theorem claim_C1 (sessions : List ThermostatSession) (p1 p2 : Int)
    (hclosed : ∀ s ∈ sessions, s.is_complete = true) :
    ∃ total count details,
      calculate_runtime_for_period sessions p1 p2 = some (total, count, details) ∧
      total = (sessions.map (fun s => max (clampOverlap p1 p2 s) 0)).sum ∧
      count = (sessions.filter (fun s => decide (0 < clampOverlap p1 p2 s))).length ∧
      ∀ s ∈ sessions, ∀ e, s.end_time = some e →
        (e ≤ p1 ∨ p2 ≤ s.start_time) → clampOverlap p1 p2 s ≤ 0 := by
  obtain ⟨t, c, d, h1, h2, h3⟩ := calculate_runtime_spec sessions p1 p2 hclosed
  refine ⟨t, c, d, h1, h2, h3, ?_⟩
  intro s _ e he hor
  simp only [clampOverlap, he]
  omega

/-- Witness for C1 at a concrete input: a session ending exactly at the
period start is not counted, and the aggregation succeeds. -/
theorem claim_C1_witness :
    clampOverlap 5 15 ⟨0, some 5, "AUTO"⟩ ≤ 0 ∧
    (calculate_runtime_for_period
      [⟨0, some 5, "AUTO"⟩, ⟨10, some 20, "MANUAL"⟩] 5 15).isSome = true := by
  obtain ⟨t, c, d, h1, h2, h3, h4⟩ :=
    claim_C1 [⟨0, some 5, "AUTO"⟩, ⟨10, some 20, "MANUAL"⟩] 5 15 (by decide)
  exact ⟨h4 ⟨0, some 5, "AUTO"⟩ (by decide) 5 rfl (Or.inl (by decide)),
    by rw [h1]; rfl⟩

/-- C2, counterexample: a `STARTED`/`STOPPED` pair carrying the same
timestamp makes `parse_logs` emit a session with `end_time = start_time`,
refuting `end_time > start_time` for every emitted session. -/
theorem claim_C2_counterexample :
    ∃ s ∈ parse_logs ["[2025-01-01 06:00:00] STATUS:STARTED",
        "[2025-01-01 06:00:00] STATUS:STOPPED"],
      s.end_time = some s.start_time := by decide

/-- C2, amended: provided the classified status-event timestamps of the
log are strictly increasing, every session emitted by `parse_logs` has
`end_time` strictly greater than `start_time`. -/
theorem claim_C2_amended (lines : List String)
    (h : (eventTimes lines).Pairwise (fun a b => a < b)) :
    ∀ s ∈ parse_logs lines, ∀ t, s.end_time = some t → s.start_time < t := by
  have hpair : (lines.filterMap classifyLine).Pairwise (fun a b => evTs a < evTs b) :=
    List.pairwise_map.1 h
  intro s hs
  have hrun := run_ordered (lines.filterMap classifyLine) ⟨[], none⟩ hpair
    (by simp) (by simp)
  rw [parse_logs, runLines, foldl_processLine_eq] at hs
  exact hrun s hs

/-- Witness for C2 (amended) at the four-line end-to-end log. -/
theorem claim_C2_amended_witness :
    (⟨1735711200, some 1735713000, "AUTO"⟩ : ThermostatSession).start_time <
      1735713000 :=
  claim_C2_amended ["[2025-01-01 06:00:00] STATUS:STARTED",
      "[2025-01-01 06:30:00] STATUS:STOPPED",
      "[2025-01-01 17:05:00] STATUS:STARTED_MANUAL",
      "[2025-01-01 17:45:00] STATUS:STOPPED_MANUAL"] (by decide)
    ⟨1735711200, some 1735713000, "AUTO"⟩ (by decide) 1735713000 rfl

/-- C3: when a `STATUS:STARTED` event is classified while a session is
open, the `parse_logs` step closes the open session at the new event's
timestamp and appends it to the emitted list, then opens a new session
starting at that timestamp whose kind is `MANUAL` exactly when the line
contains the `MANUAL` flag (`"MANUAL" in line`). -/
theorem claim_C3 (st : ParseState) (line : String) (ts : Int) (m : Bool)
    (cur : ThermostatSession)
    (hcur : st.current_session = some cur) (hopen : cur.end_time = none)
    (hcls : classifyLine line = some (.started ts m)) :
    processLine st line =
      ⟨st.sessions ++ [{ cur with end_time := some ts }],
        some ⟨ts, none, if m then "MANUAL" else "AUTO"⟩⟩ ∧
    m = hasSub manualTok line.toList := by
  constructor
  · simp [processLine, hcls, stepEvent, hcur, ThermostatSession.is_complete, hopen]
  · unfold classifyLine at hcls
    dsimp only at hcls
    split at hcls
    · exact absurd hcls (by simp)
    · split at hcls
      · exact absurd hcls (by simp)
      · split at hcls
        · exact absurd hcls (by simp)
        · split at hcls
          · simp only [Option.some.injEq, StatusEvent.started.injEq] at hcls
            exact hcls.2.symm
          · split at hcls
            · exact absurd hcls (by simp)
            · exact absurd hcls (by simp)

/-- Witness for C3: a manual start at 07:00 closes the session open
since `100` and opens a manual session. -/
theorem claim_C3_witness :
    processLine ⟨[], some ⟨100, none, "AUTO"⟩⟩
        "[2025-01-01 07:00:00] STATUS:STARTED_MANUAL" =
      ⟨[⟨100, some 1735714800, "AUTO"⟩], some ⟨1735714800, none, "MANUAL"⟩⟩ ∧
    true = hasSub manualTok "[2025-01-01 07:00:00] STATUS:STARTED_MANUAL".toList := by
  have h := claim_C3 ⟨[], some ⟨100, none, "AUTO"⟩⟩
    "[2025-01-01 07:00:00] STATUS:STARTED_MANUAL" 1735714800 true
    ⟨100, none, "AUTO"⟩ rfl rfl (by decide)
  exact ⟨h.1, h.2⟩

/-- C4: when the final classified status event of the log is a start,
the loop ends with that session still open in `current_session`, the
open session is not emitted by `parse_logs`, and aggregating the
returned sessions over any period beginning at or after that trailing
start yields zero seconds, zero sessions and no details. -/
theorem claim_C4 (lines : List String) (startLine : String) (ts : Int) (m : Bool)
    (p1 p2 : Int)
    (hc : classifyLine startLine = some (.started ts m))
    (hpast : ∀ t ∈ eventTimes lines, t ≤ ts)
    (hp : ts ≤ p1) :
    (runLines (lines ++ [startLine])).current_session =
      some ⟨ts, none, if m then "MANUAL" else "AUTO"⟩ ∧
    calculate_runtime_for_period (parse_logs (lines ++ [startLine])) p1 p2 =
      some (0, 0, []) := by
  constructor
  · rw [runLines, List.foldl_append]
    simp [processLine, hc, stepEvent]
  · have hev : (lines ++ [startLine]).filterMap classifyLine =
        lines.filterMap classifyLine ++ [.started ts m] := by
      simp [List.filterMap_append, hc]
    have hparse : parse_logs (lines ++ [startLine]) =
        ((lines.filterMap classifyLine ++ [StatusEvent.started ts m]).foldl
          stepEvent ⟨[], none⟩).sessions := by
      rw [parse_logs, runLines, foldl_processLine_eq, hev]
    have hbound : ∀ e ∈ lines.filterMap classifyLine ++ [StatusEvent.started ts m],
        evTs e ≤ ts := by
      intro e he
      rcases List.mem_append.1 he with he | he
      · exact hpast (evTs e) (List.mem_map_of_mem evTs he)
      · simp only [List.mem_singleton] at he
        subst he
        exact le_refl ts
    rw [hparse]
    exact calculate_runtime_all_past _ p1 p2
      (run_complete _ _ (by simp))
      (fun s hs t ht =>
        le_trans (run_endBound ts _ _ hbound (by simp) s hs t ht) hp)

/-- Witness for C4: a closed morning session followed by a trailing
start at 08:00; aggregating from 08:00 onward counts nothing while the
trailing session sits open in the loop state. -/
theorem claim_C4_witness :
    (runLines (["[2025-01-01 06:00:00] STATUS:STARTED",
        "[2025-01-01 06:30:00] STATUS:STOPPED"] ++
        ["[2025-01-01 08:00:00] STATUS:STARTED"])).current_session =
      some ⟨1735718400, none, "AUTO"⟩ ∧
    calculate_runtime_for_period
      (parse_logs (["[2025-01-01 06:00:00] STATUS:STARTED",
        "[2025-01-01 06:30:00] STATUS:STOPPED"] ++
        ["[2025-01-01 08:00:00] STATUS:STARTED"])) 1735718400 1735804800 =
      some (0, 0, []) := by
  have h := claim_C4 ["[2025-01-01 06:00:00] STATUS:STARTED",
      "[2025-01-01 06:30:00] STATUS:STOPPED"]
    "[2025-01-01 08:00:00] STATUS:STARTED" 1735718400 false 1735718400 1735804800
    (by decide) (by decide) (le_refl _)
  exact ⟨h.1, h.2⟩

/-- C5: the four-line end-to-end scenario reconstructs exactly the two
sessions (06:00–06:30, AUTO, 1800 s) and (17:05–17:45, MANUAL, 2400 s);
aggregating them over the full day 2025-01-01 yields 4200 total seconds
and 2 sessions, and `format_seconds 4200 = "1h 10m"`. -/
theorem claim_C5 :
    parse_logs ["[2025-01-01 06:00:00] STATUS:STARTED",
        "[2025-01-01 06:30:00] STATUS:STOPPED",
        "[2025-01-01 17:05:00] STATUS:STARTED_MANUAL",
        "[2025-01-01 17:45:00] STATUS:STOPPED_MANUAL"] =
      [⟨1735711200, some 1735713000, "AUTO"⟩,
        ⟨1735751100, some 1735753500, "MANUAL"⟩] ∧
    (⟨1735711200, some 1735713000, "AUTO"⟩ : ThermostatSession).duration_seconds =
      some 1800 ∧
    (⟨1735751100, some 1735753500, "MANUAL"⟩ : ThermostatSession).duration_seconds =
      some 2400 ∧
    (calculate_runtime_for_period
      (parse_logs ["[2025-01-01 06:00:00] STATUS:STARTED",
        "[2025-01-01 06:30:00] STATUS:STOPPED",
        "[2025-01-01 17:05:00] STATUS:STARTED_MANUAL",
        "[2025-01-01 17:45:00] STATUS:STOPPED_MANUAL"])
      1735689600 1735776000).map (fun r => (r.1, r.2.1)) = some (4200, 2) ∧
    format_seconds (some 4200) = "1h 10m" := by decide

/-- C6: recording a date twice leaves exactly one entry for that date,
holding the later aggregate (last write wins, no accumulation), and
loading after the save returns exactly the mapping that was written,
hence exactly the fields written for the date. -/
theorem claim_C6 (file : Option SummaryStore) (d : String) (a a' : DailyEntry)
    (h : ((load_summary_file file).map Prod.fst).Nodup) :
    load_summary_file (add_daily_summary (add_daily_summary file d a) d a') =
      dictSet (dictSet (load_summary_file file) d a) d a' ∧
    dictGet (load_summary_file (add_daily_summary (add_daily_summary file d a) d a')) d =
      some a' ∧
    ((load_summary_file (add_daily_summary (add_daily_summary file d a) d a')).filter
      (fun p => p.1 == d)).length = 1 := by
  refine ⟨rfl, ?_, ?_⟩
  · exact dictGet_dictSet _ d a'
  · exact count_dictSet _ d a' (nodup_dictSet _ d a h)

/-- Witness for C6 on a concrete one-entry store. -/
theorem claim_C6_witness :
    dictGet (load_summary_file (add_daily_summary
      (add_daily_summary (some [("2025-01-01", ⟨0, "0m", 0, "t0"⟩)]) "2025-01-02"
        ⟨10, "0m", 1, "t1"⟩) "2025-01-02" ⟨20, "0m", 2, "t2"⟩)) "2025-01-02" =
      some ⟨20, "0m", 2, "t2"⟩ ∧
    ((load_summary_file (add_daily_summary
      (add_daily_summary (some [("2025-01-01", ⟨0, "0m", 0, "t0"⟩)]) "2025-01-02"
        ⟨10, "0m", 1, "t1"⟩) "2025-01-02" ⟨20, "0m", 2, "t2"⟩)).filter
      (fun p => p.1 == "2025-01-02")).length = 1 := by
  have h := claim_C6 (some [("2025-01-01", ⟨0, "0m", 0, "t0"⟩)]) "2025-01-02"
    ⟨10, "0m", 1, "t1"⟩ ⟨20, "0m", 2, "t2"⟩ (by decide)
  exact ⟨h.2.1, h.2.2⟩

/-- C7, counterexample: the reply of the Query service to
`DAILY_SUMMARY` is the bare boolean returned by `add_daily_summary`, a
response with no `status` field. -/
theorem claim_C7_counterexample :
    handle_client_response none 0 none "DAILY_SUMMARY" = JVal.bool false ∧
    hasStatus (handle_client_response none 0 none "DAILY_SUMMARY") = false :=
  ⟨rfl, rfl⟩

/-- C7, amended: every response of the three protocol services carries
an explicit `status` field, except the Query service's `DAILY_SUMMARY`
reply, which is a bare boolean; for the Control service this holds for
every response actually sent (empty input receives no response). -/
theorem claim_C7_amended :
    (∀ (file : Option (List String)) (now : Int) (store : Option SummaryStore)
      (request : String), request ≠ "DAILY_SUMMARY" →
        hasStatus (handle_client_response file now store request) = true) ∧
    (∀ (data : String) (sendOk : Bool) (tstat tmode : String) (lastHb : Int)
      (v : JVal), handle_command_response data sendOk tstat tmode lastHb = some v →
        hasStatus v = true) ∧
    (∀ (payload : Option (List (String × JVal))) (sendOk : Bool),
      hasStatus (handle_notification_response payload sendOk) = true) := by
  refine ⟨?_, ?_, ?_⟩
  · intro file now store request hreq
    by_cases h1 : request = "SUMMARY"
    · simp only [handle_client_response, if_pos h1]
      exact hasStatus_get_summary file now
    · by_cases h2 : request = "HISTORICAL"
      · simp only [handle_client_response, if_neg h1, if_neg hreq, if_pos h2]
        rfl
      · simp only [handle_client_response, if_neg h1, if_neg hreq, if_neg h2]
        rfl
  · intro data sendOk tstat tmode lastHb v h
    unfold handle_command_response at h
    split at h
    · exact absurd h (by simp)
    · rw [Option.some.injEq] at h
      subst h
      split
      · split <;> rfl
      · split
        · split <;> rfl
        · split
          · split <;> rfl
          · split <;> rfl
  · intro payload sendOk
    unfold handle_notification_response
    split
    · rfl
    · split
      · split <;> rfl
      · rfl

/-- Witness for C7 (amended) on concrete requests of each service. -/
theorem claim_C7_amended_witness :
    hasStatus (handle_client_response none 0 none "SUMMARY") = true ∧
    hasStatus (JVal.obj [("status", JVal.str "success"),
      ("message", JVal.str "Command sent: OVERRIDE:ON")]) = true ∧
    hasStatus (handle_notification_response none true) = true :=
  ⟨claim_C7_amended.1 none 0 none "SUMMARY" (by decide),
   claim_C7_amended.2.1 "OVERRIDE:ON" true "ON" "AUTO" 0 _ rfl,
   claim_C7_amended.2.2 none true⟩

/-- C8: with the elapsed time above the timeout on every one of `N ≥ 1`
consecutive checks and no intervening heartbeat, exactly one offline
notification fires (on the first check, latching `alert_sent`), and one
further check after a fresh heartbeat brings the elapsed time below the
timeout, firing exactly one recovered notification and clearing
`alert_sent`. -/
theorem claim_C8 (timeout e' : Int) (es : List Int)
    (hne : es ≠ [])
    (hover : ∀ e ∈ es, timeout < e)
    (hrec : e' < timeout) :
    runMon timeout false es = (true, [MonEvent.offline]) ∧
    runMon timeout false (es ++ [e']) =
      (false, [MonEvent.offline, MonEvent.recovered]) := by
  obtain ⟨e, rest, rfl⟩ := List.exists_cons_of_ne_nil hne
  have he := hover e (List.mem_cons_self e rest)
  have hstale := runMon_stale timeout rest
    (fun f hf => hover f (List.mem_cons_of_mem e hf))
  have h1 : runMon timeout false (e :: rest) = (true, [MonEvent.offline]) := by
    simp [runMon, monitor_check, he, hstale]
  refine ⟨h1, ?_⟩
  rw [runMon_append, h1]
  simp [runMon, monitor_check, hrec, show ¬ timeout < e' by omega]

/-- Witness for C8: timeout 90, two stale checks, then a fresh one. -/
theorem claim_C8_witness :
    runMon 90 false [100, 120] = (true, [MonEvent.offline]) ∧
    runMon 90 false ([100, 120] ++ [10]) =
      (false, [MonEvent.offline, MonEvent.recovered]) :=
  claim_C8 90 10 [100, 120] (by decide) (by decide) (by decide)

/-- C9, counterexample: a heartbeat line with only the minimum fields
(clock and on/off) sets the status but leaves the mode at its previous
value (here `AUTO`), not at `"unknown"` as the claim states. -/
theorem claim_C9_counterexample :
    (read_arduino_step ⟨0, "OFF".toList, "AUTO".toList⟩ 50
      "HEARTBEAT:12:30:ON".toList).thermostat_status = "ON".toList ∧
    (read_arduino_step ⟨0, "OFF".toList, "AUTO".toList⟩ 50
      "HEARTBEAT:12:30:ON".toList).thermostat_mode = "AUTO".toList ∧
    "AUTO".toList ≠ "unknown".toList ∧ "AUTO".toList ≠ "UNKNOWN".toList := by
  exact ⟨rfl, rfl, by decide, by decide⟩

/-- C9, amended: a heartbeat line with at least a clock field and an
on/off field has the status taken from it, and the optional mode field
replaces the mode when present, while an absent mode field leaves the
reader's mode unchanged; a heartbeat missing the minimum fields changes
no status (it only refreshes `last_heartbeat`); the status display path
is what substitutes `"UNKNOWN"` for an absent mode field. -/
theorem claim_C9_amended :
    (∀ (st : DevState) (now : Int) (suffix : List Char)
      (p0 p1 p2 p3 : List Char) (rest : List (List Char)),
      splitChars ("HEARTBEAT:".toList ++ suffix) ':' = p0 :: p1 :: p2 :: p3 :: rest →
      read_arduino_step st now ("HEARTBEAT:".toList ++ suffix) =
        { st with last_heartbeat := now, thermostat_status := p3,
                  thermostat_mode := rest.headD st.thermostat_mode }) ∧
    (∀ (st : DevState) (now : Int) (suffix : List Char)
      (parts : List (List Char)),
      splitChars ("HEARTBEAT:".toList ++ suffix) ':' = parts → parts.length < 4 →
      read_arduino_step st now ("HEARTBEAT:".toList ++ suffix) =
        { st with last_heartbeat := now }) ∧
    (∀ (hbData : List Char) (p0 p1 p2 : List Char),
      splitChars hbData ':' = [p0, p1, p2] →
      cmd_status_heartbeat hbData = some (p0 ++ [':'] ++ p1, p2, "UNKNOWN".toList)) := by
  refine ⟨?_, ?_, ?_⟩
  · intro st now suffix p0 p1 p2 p3 rest h
    have e : read_arduino_step st now ("HEARTBEAT:".toList ++ suffix) =
        heartbeat_update st now (splitChars ("HEARTBEAT:".toList ++ suffix) ':') := rfl
    rw [e, h]
    cases rest with
    | nil => rfl
    | cons p4 r => rfl
  · intro st now suffix parts h hlen
    have e : read_arduino_step st now ("HEARTBEAT:".toList ++ suffix) =
        heartbeat_update st now (splitChars ("HEARTBEAT:".toList ++ suffix) ':') := rfl
    rw [e, h]
    rcases parts with _ | ⟨a, _ | ⟨b, _ | ⟨c, _ | ⟨d, r⟩⟩⟩⟩
    · rfl
    · rfl
    · rfl
    · rfl
    · simp at hlen
      omega
  · intro hbData p0 p1 p2 h
    unfold cmd_status_heartbeat
    rw [h]

/-- Witness for C9 (amended): a full heartbeat replaces status and mode;
the display extractor defaults an absent mode to `UNKNOWN`. -/
theorem claim_C9_amended_witness :
    read_arduino_step ⟨0, "OFF".toList, "AUTO".toList⟩ 77
        ("HEARTBEAT:".toList ++ "12:30:ON:MANUAL".toList) =
      ⟨77, "ON".toList, "MANUAL".toList⟩ ∧
    cmd_status_heartbeat "12:30:ON".toList =
      some ("12".toList ++ [':'] ++ "30".toList, "ON".toList, "UNKNOWN".toList) := by
  refine ⟨?_, ?_⟩
  · have h := claim_C9_amended.1 ⟨0, "OFF".toList, "AUTO".toList⟩ 77
      "12:30:ON:MANUAL".toList "HEARTBEAT".toList "12".toList "30".toList
      "ON".toList ["MANUAL".toList] (by decide)
    simpa using h
  · exact claim_C9_amended.2.2 "12:30:ON".toList "12".toList "30".toList
      "ON".toList (by decide)

/-- C10: whenever parsing the log yields zero complete sessions — in
particular for a missing or empty log file — `get_summary` returns the
error dictionary with message `No sessions found in logs` rather than a
success response with zero totals. -/
theorem claim_C10 (file : Option (List String)) (now : Int)
    (h : parse_logs_file file = []) :
    get_summary file now = errObj "No sessions found in logs" := by
  simp [get_summary, h]

/-- Witness for C10: a missing log file. -/
theorem claim_C10_witness :
    get_summary none 0 = errObj "No sessions found in logs" :=
  claim_C10 none 0 rfl
